import Mathlib

/-!
Verification of the VRAXION lab supervisor
(`Golden Draft/tools/vraxion_lab_supervisor.py`).

The Python code is shallowly embedded: Python floats that only ever hold
integer-derived values and are compared or combined by field operations are
modelled as rationals; command-line integers as integers; the stateful
supervisor loop as an explicit step function over a state record, driven by a
trace of environment observations (stop-file checks, child exits, poll
readings).
-/

namespace Vraxion

/-- Embedding of `WatchdogStage` (an `IntEnum` in the source). -/
inductive WatchdogStage where
  | OK
  | SURGE
  | SPILL
  | BREACH
  | WASHOUT
deriving DecidableEq, Repr

/-- Numeric value of each stage, matching the `IntEnum` assignment
`OK = 0, SURGE = 1, SPILL = 2, BREACH = 3, WASHOUT = 4`. -/
def WatchdogStage.val : WatchdogStage → ℕ
  | .OK => 0
  | .SURGE => 1
  | .SPILL => 2
  | .BREACH => 3
  | .WASHOUT => 4

/-- Embedding of `_compute_watchdog_stage` (lines 64-75 of the source). -/
def compute_watchdog_stage (no_output_s surge_s spill_s breach_s : ℚ) : WatchdogStage :=
  if breach_s ≤ 0 then WatchdogStage.OK
  else if breach_s ≤ no_output_s then WatchdogStage.BREACH
  else if 0 < spill_s ∧ spill_s ≤ no_output_s then WatchdogStage.SPILL
  else if 0 < surge_s ∧ surge_s ≤ no_output_s then WatchdogStage.SURGE
  else WatchdogStage.OK

/-- Classifier written from the specification text: disabled when
`breach_threshold <= 0`; else `elapsed >= breach` gives BREACH; else
`spill > 0 and elapsed >= spill` gives SPILL; else `surge > 0 and
elapsed >= surge` gives SURGE; else OK. Kept separate from the source
embedding so the two can be compared. -/
def classify_spec (elapsed surge_threshold spill_threshold breach_threshold : ℚ) :
    WatchdogStage :=
  if breach_threshold ≤ 0 then WatchdogStage.OK
  else if breach_threshold ≤ elapsed then WatchdogStage.BREACH
  else if 0 < spill_threshold ∧ spill_threshold ≤ elapsed then WatchdogStage.SPILL
  else if 0 < surge_threshold ∧ surge_threshold ≤ elapsed then WatchdogStage.SURGE
  else WatchdogStage.OK

/-- Helper: under ordered thresholds `0 < u < p < b`, the numeric stage value
is the three-way threshold comparison. -/
theorem stage_val_eq (e u p b : ℚ) (h1 : 0 < u) (h2 : u < p) (h3 : p < b) :
    (compute_watchdog_stage e u p b).val =
      if b ≤ e then 3 else if p ≤ e then 2 else if u ≤ e then 1 else 0 := by
  unfold compute_watchdog_stage
  split_ifs with hb hbe hsp hsu <;>
    simp_all [WatchdogStage.val] <;> linarith

/-- C1: the pure watchdog stage classifier follows exactly the spec rules with
inclusive boundaries, and realizes the concrete table for
surge=3, spill=7, breach=10. -/
theorem claim_C1 :
    (∀ e u p b : ℚ, compute_watchdog_stage e u p b = classify_spec e u p b) ∧
    compute_watchdog_stage 0 3 7 10 = WatchdogStage.OK ∧
    compute_watchdog_stage 3 3 7 10 = WatchdogStage.SURGE ∧
    compute_watchdog_stage (69/10) 3 7 10 = WatchdogStage.SURGE ∧
    compute_watchdog_stage 7 3 7 10 = WatchdogStage.SPILL ∧
    compute_watchdog_stage (99/10) 3 7 10 = WatchdogStage.SPILL ∧
    compute_watchdog_stage 10 3 7 10 = WatchdogStage.BREACH ∧
    compute_watchdog_stage 999 3 7 10 = WatchdogStage.BREACH := by
  refine ⟨fun e u p b => rfl, ?_, ?_, ?_, ?_, ?_, ?_, ?_⟩ <;>
    (unfold compute_watchdog_stage; norm_num)

/-- C2: with `0 < surge < spill < breach` the classifier is monotone
non-decreasing in elapsed time (under the stage order), and it returns
BREACH exactly when `breach <= elapsed`. -/
theorem claim_C2 (u p b : ℚ) (h1 : 0 < u) (h2 : u < p) (h3 : p < b) :
    (∀ e1 e2 : ℚ, e1 ≤ e2 →
      (compute_watchdog_stage e1 u p b).val ≤ (compute_watchdog_stage e2 u p b).val) ∧
    (∀ e : ℚ, compute_watchdog_stage e u p b = WatchdogStage.BREACH ↔ b ≤ e) := by
  constructor
  · intro e1 e2 he
    rw [stage_val_eq e1 u p b h1 h2 h3, stage_val_eq e2 u p b h1 h2 h3]
    split_ifs <;> (try push_neg at *) <;> (first | linarith | omega)
  · intro e
    unfold compute_watchdog_stage
    split_ifs with hb hbe hsp hsu <;> simp_all <;> linarith

/-- Witness for C2 at surge=3, spill=7, breach=10. -/
theorem claim_C2_witness :
    (compute_watchdog_stage 5 3 7 10).val ≤ (compute_watchdog_stage 8 3 7 10).val ∧
    (compute_watchdog_stage 10 3 7 10 = WatchdogStage.BREACH ↔ (10:ℚ) ≤ 10) := by
  have h := claim_C2 3 7 10 (by norm_num) (by norm_num) (by norm_num)
  exact ⟨h.1 5 8 (by norm_num), h.2 10⟩

/-- Resolved watchdog thresholds as computed once at startup. -/
structure ResolvedThresholds where
  watchdogS : ℚ
  surgeS : ℚ
  spillS : ℚ
deriving DecidableEq, Repr

/-- Derived surge default `max(1.0, watchdog_s / 3.0)` (line 351). -/
def derived_surge (w : ℚ) : ℚ := max 1 (w / 3)

/-- Surge resolution (lines 350-351): a supplied value outside `(0, w)` is
replaced by the derived default. -/
def resolve_surge (w u : ℚ) : ℚ :=
  if u ≤ 0 ∨ w ≤ u then derived_surge w else u

/-- Spill resolution before the ordering bump (lines 352-353). -/
def resolve_spill_pre (w u p : ℚ) : ℚ :=
  if p ≤ 0 ∨ w ≤ p then max (resolve_surge w u + 1) (2 * w / 3) else p

/-- Spill resolution including the strict-ordering bump (lines 354-355). -/
def resolve_spill (w u p : ℚ) : ℚ :=
  if resolve_spill_pre w u p ≤ resolve_surge w u then resolve_surge w u + 1
  else resolve_spill_pre w u p

/-- Embedding of the threshold setup in `main` (lines 346-358). Inputs are
the integers parsed from `--watchdog-no-output-s`, `--watchdog-surge-s`,
`--watchdog-spill-s`; each is clamped with `max(0, ...)` and cast to float.
If the breach threshold is 0, surge and spill are forced to 0. -/
def resolve_thresholds (watchdog_no_output_s watchdog_surge_s watchdog_spill_s : ℤ) :
    ResolvedThresholds :=
  let wq : ℚ := ((max 0 watchdog_no_output_s : ℤ) : ℚ)
  let uq : ℚ := ((max 0 watchdog_surge_s : ℤ) : ℚ)
  let pq : ℚ := ((max 0 watchdog_spill_s : ℤ) : ℚ)
  if 0 < wq then
    { watchdogS := wq, surgeS := resolve_surge wq uq, spillS := resolve_spill wq uq pq }
  else
    { watchdogS := wq, surgeS := 0, spillS := 0 }

/-- Helper: the surge default is positive. -/
theorem resolve_surge_pos (w u : ℚ) (hw : 0 < w) : 0 < resolve_surge w u := by
  unfold resolve_surge derived_surge
  split_ifs with h
  · exact lt_max_iff.mpr (Or.inl one_pos)
  · push_neg at h
    exact h.1

/-- Helper: with `3 <= w`, the resolved surge stays at distance 2 below the
breach threshold whenever the supplied value is unusable or itself at most
`w - 2`. -/
theorem resolve_surge_le (w u : ℚ) (hw : 3 ≤ w) (hu : u ≤ 0 ∨ w ≤ u ∨ u ≤ w - 2) :
    resolve_surge w u ≤ w - 2 := by
  unfold resolve_surge derived_surge
  split_ifs with h
  · rw [max_le_iff]
    constructor <;> linarith
  · push_neg at h
    rcases hu with h1 | h1 | h1
    · linarith [h.1]
    · linarith [h.2]
    · exact h1

/-- Helper: the resolved spill is strictly above the resolved surge. -/
theorem resolve_spill_gt (w u p : ℚ) : resolve_surge w u < resolve_spill w u p := by
  unfold resolve_spill
  split_ifs with h
  · linarith
  · push_neg at h
    exact h

/-- Helper: the resolved spill stays strictly below the breach threshold as
long as the resolved surge sits at least 2 below it. -/
theorem resolve_spill_lt (w u p : ℚ) (hw : 3 ≤ w)
    (hs : resolve_surge w u ≤ w - 2) : resolve_spill w u p < w := by
  by_cases hp : p ≤ 0 ∨ w ≤ p
  · have hpre : resolve_spill_pre w u p = max (resolve_surge w u + 1) (2 * w / 3) :=
      if_pos hp
    unfold resolve_spill
    rw [hpre, if_neg (by
      intro hc
      have h1 := le_trans (le_max_left (resolve_surge w u + 1) (2 * w / 3)) hc
      linarith)]
    rw [max_lt_iff]
    constructor <;> linarith
  · have hpre : resolve_spill_pre w u p = p := if_neg hp
    push_neg at hp
    unfold resolve_spill
    rw [hpre]
    split_ifs with h
    · linarith
    · exact hp.2

/-- Helper: with breach enabled, `resolve_thresholds` keeps the clamped
breach value and resolves surge/spill through `resolve_surge`/`resolve_spill`. -/
theorem resolve_thresholds_enabled (w u p : ℤ) (hw : 0 < w) :
    resolve_thresholds w u p =
      { watchdogS := (w : ℚ),
        surgeS := resolve_surge (w : ℚ) ((max 0 u : ℤ) : ℚ),
        spillS := resolve_spill (w : ℚ) ((max 0 u : ℤ) : ℚ) ((max 0 p : ℤ) : ℚ) } := by
  have hmw : max 0 w = w := max_eq_right hw.le
  simp only [resolve_thresholds, hmw]
  rw [if_pos (show (0 : ℚ) < (w : ℚ) by exact_mod_cast hw)]

/-- Helper: a surge argument that is unusable (`<= 0` or `>= breach`) resolves
to the derived default `max(1, breach/3)`. -/
theorem resolve_surge_default (w u p : ℤ) (hw : 0 < w) (hu : u ≤ 0 ∨ w ≤ u) :
    (resolve_thresholds w u p).surgeS = max 1 ((w : ℚ) / 3) := by
  rw [resolve_thresholds_enabled w u p hw]
  unfold resolve_surge derived_surge
  rw [if_pos]
  rcases hu with h | h
  · left
    have : max 0 u = 0 := max_eq_left h
    rw [this]
    norm_num
  · right
    have hu0 : max 0 u = u := max_eq_right (by omega)
    rw [hu0]
    exact_mod_cast h

/-- Helper: a spill argument that is unusable (`<= 0` or `>= breach`) resolves
to `max(resolved surge + 1, 2*breach/3)`, and the ordering bump never fires on
this default. -/
theorem resolve_spill_default (w u p : ℤ) (hw : 0 < w) (hp : p ≤ 0 ∨ w ≤ p) :
    (resolve_thresholds w u p).spillS =
      max ((resolve_thresholds w u p).surgeS + 1) (2 * (w : ℚ) / 3) := by
  rw [resolve_thresholds_enabled w u p hw]
  have hpq : ((max 0 p : ℤ) : ℚ) ≤ 0 ∨ (w : ℚ) ≤ ((max 0 p : ℤ) : ℚ) := by
    rcases hp with h | h
    · left
      have : max 0 p = 0 := max_eq_left h
      rw [this]
      norm_num
    · right
      have hp0 : max 0 p = p := max_eq_right (by omega)
      rw [hp0]
      exact_mod_cast h
  have hpre : resolve_spill_pre (w : ℚ) ((max 0 u : ℤ) : ℚ) ((max 0 p : ℤ) : ℚ) =
      max (resolve_surge (w : ℚ) ((max 0 u : ℤ) : ℚ) + 1) (2 * (w : ℚ) / 3) :=
    if_pos hpq
  unfold resolve_spill
  rw [hpre, if_neg (by
    intro hc
    have h1 := le_trans
      (le_max_left (resolve_surge (w : ℚ) ((max 0 u : ℤ) : ℚ) + 1) (2 * (w : ℚ) / 3)) hc
    linarith)]

/-- Helper: a usable surge argument (`0 < u < breach`) is honored verbatim. -/
theorem resolve_surge_kept (w u p : ℤ) (hw : 0 < w) (h1 : 0 < u) (h2 : u < w) :
    (resolve_thresholds w u p).surgeS = (u : ℚ) := by
  rw [resolve_thresholds_enabled w u p hw]
  have hu0 : max 0 u = u := max_eq_right h1.le
  unfold resolve_surge
  rw [hu0, if_neg]
  push_neg
  constructor
  · exact_mod_cast h1
  · exact_mod_cast h2

/-- Helper: with watchdog disabled (`w <= 0`), all three resolved thresholds
are zero. -/
theorem resolve_thresholds_disabled (w u p : ℤ) (hw : w ≤ 0) :
    (resolve_thresholds w u p).watchdogS = 0 ∧
    (resolve_thresholds w u p).surgeS = 0 ∧
    (resolve_thresholds w u p).spillS = 0 := by
  have hmw : max 0 w = 0 := max_eq_left hw
  simp only [resolve_thresholds, hmw]
  norm_num

/-- Counterexample to C3: with `--watchdog-no-output-s 2` and no supplied
surge/spill (the derivation case with breach enabled), the derived spill
equals the breach threshold, so `spill < breach` fails. -/
theorem claim_C3_counterexample :
    (resolve_thresholds 2 0 0).watchdogS = 2 ∧
    (resolve_thresholds 2 0 0).surgeS = 1 ∧
    (resolve_thresholds 2 0 0).spillS = 2 ∧
    ¬ ((resolve_thresholds 2 0 0).spillS < (resolve_thresholds 2 0 0).watchdogS) := by
  unfold resolve_thresholds resolve_spill resolve_spill_pre resolve_surge derived_surge
  norm_num

/-- C3 as amended: when breach is enabled the derivation formulas hold as the
spec states them (surge default `max(1, breach/3)` when the supplied surge is
unusable; spill default `max(surge+1, 2*breach/3)` when the supplied spill is
unusable; spill bumped above surge otherwise), and the startup invariant
`0 < surge < spill < breach` holds provided `breach >= 3` and any
caller-supplied surge differs from `breach - 1`; for `breach` in {1, 2} or a
supplied surge of exactly `breach - 1`, the resolved spill can land on or past
the breach threshold. -/
theorem claim_C3 (w u p : ℤ) :
    (0 < w → (u ≤ 0 ∨ w ≤ u) →
      (resolve_thresholds w u p).surgeS = max 1 ((w : ℚ) / 3)) ∧
    (0 < w → (p ≤ 0 ∨ w ≤ p) →
      (resolve_thresholds w u p).spillS =
        max ((resolve_thresholds w u p).surgeS + 1) (2 * (w : ℚ) / 3)) ∧
    (3 ≤ w → u ≠ w - 1 →
      0 < (resolve_thresholds w u p).surgeS ∧
      (resolve_thresholds w u p).surgeS < (resolve_thresholds w u p).spillS ∧
      (resolve_thresholds w u p).spillS < (resolve_thresholds w u p).watchdogS) := by
  refine ⟨resolve_surge_default w u p, resolve_spill_default w u p, ?_⟩
  intro hw3 hu
  have hw : 0 < w := by omega
  have hwq3 : (3 : ℚ) ≤ (w : ℚ) := by exact_mod_cast hw3
  have huq : ((max 0 u : ℤ) : ℚ) ≤ 0 ∨ (w : ℚ) ≤ ((max 0 u : ℤ) : ℚ) ∨
      ((max 0 u : ℤ) : ℚ) ≤ (w : ℚ) - 2 := by
    have hcase : max 0 u ≤ 0 ∨ w ≤ max 0 u ∨ max 0 u ≤ w - 2 := by omega
    rcases hcase with h | h | h
    · exact Or.inl (by exact_mod_cast h)
    · exact Or.inr (Or.inl (by exact_mod_cast h))
    · refine Or.inr (Or.inr ?_)
      have : ((max 0 u : ℤ) : ℚ) ≤ ((w - 2 : ℤ) : ℚ) := by exact_mod_cast h
      rw [Int.cast_sub] at this
      simpa using this
  rw [resolve_thresholds_enabled w u p hw]
  have hs_pos := resolve_surge_pos (w : ℚ) ((max 0 u : ℤ) : ℚ) (by exact_mod_cast hw)
  have hs_le := resolve_surge_le (w : ℚ) ((max 0 u : ℤ) : ℚ) hwq3 huq
  exact ⟨hs_pos,
    resolve_spill_gt (w : ℚ) ((max 0 u : ℤ) : ℚ) ((max 0 p : ℤ) : ℚ),
    resolve_spill_lt (w : ℚ) ((max 0 u : ℤ) : ℚ) ((max 0 p : ℤ) : ℚ) hwq3 hs_le⟩

/-- Witness for C3 at breach=10, surge supplied 0 (derived), spill supplied 0
(derived): the derivation formulas and the ordering invariant hold. -/
theorem claim_C3_witness :
    (resolve_thresholds 10 0 0).surgeS = max 1 ((10 : ℚ) / 3) ∧
    (resolve_thresholds 10 0 0).spillS =
      max ((resolve_thresholds 10 0 0).surgeS + 1) (2 * (10 : ℚ) / 3) ∧
    0 < (resolve_thresholds 10 0 0).surgeS ∧
    (resolve_thresholds 10 0 0).surgeS < (resolve_thresholds 10 0 0).spillS ∧
    (resolve_thresholds 10 0 0).spillS < (resolve_thresholds 10 0 0).watchdogS := by
  have h := claim_C3 10 0 0
  exact ⟨h.1 (by norm_num) (Or.inl le_rfl),
    h.2.1 (by norm_num) (Or.inl le_rfl),
    h.2.2 (by norm_num) (by norm_num)⟩

/-- C10: a supplied surge or spill outside the open interval
`(0, breach)` is silently replaced by the derived default, a usable surge is
honored verbatim, and a zero breach threshold forces surge and spill to zero
(watchdog fully disabled). -/
theorem claim_C10 (w u p : ℤ) :
    (w ≤ 0 →
      (resolve_thresholds w u p).watchdogS = 0 ∧
      (resolve_thresholds w u p).surgeS = 0 ∧
      (resolve_thresholds w u p).spillS = 0) ∧
    (0 < w → (u ≤ 0 ∨ w ≤ u) →
      (resolve_thresholds w u p).surgeS = max 1 ((w : ℚ) / 3)) ∧
    (0 < w → (p ≤ 0 ∨ w ≤ p) →
      (resolve_thresholds w u p).spillS =
        max ((resolve_thresholds w u p).surgeS + 1) (2 * (w : ℚ) / 3)) ∧
    (0 < w → 0 < u → u < w → (resolve_thresholds w u p).surgeS = (u : ℚ)) :=
  ⟨resolve_thresholds_disabled w u p,
   resolve_surge_default w u p,
   resolve_spill_default w u p,
   resolve_surge_kept w u p⟩

/-- Witness for C10: breach=0 disables everything; breach=10 with supplied
surge 20 (out of range) derives the default; supplied surge 4 is honored. -/
theorem claim_C10_witness :
    ((resolve_thresholds 0 5 6).watchdogS = 0 ∧
      (resolve_thresholds 0 5 6).surgeS = 0 ∧
      (resolve_thresholds 0 5 6).spillS = 0) ∧
    (resolve_thresholds 10 20 0).surgeS = max 1 ((10 : ℚ) / 3) ∧
    (resolve_thresholds 10 4 0).spillS =
      max ((resolve_thresholds 10 4 0).surgeS + 1) (2 * (10 : ℚ) / 3) ∧
    (resolve_thresholds 10 4 0).surgeS = (4 : ℚ) := by
  exact ⟨(claim_C10 0 5 6).1 le_rfl,
    (claim_C10 10 20 0).2.1 (by norm_num) (Or.inr (by norm_num)),
    (claim_C10 10 4 0).2.2.1 (by norm_num) (Or.inl le_rfl),
    (claim_C10 10 4 0).2.2.2 (by norm_num) (by norm_num) (by norm_num)⟩
theorem claim_C9 :
    ∀ e u p b : ℚ, compute_watchdog_stage e u p b ≠ WatchdogStage.WASHOUT := by
  intro e u p b
  unfold compute_watchdog_stage
  split_ifs <;> simp

/-- Wake-trigger reason codes used by the supervisor. -/
inductive Reason where
  | heartbeat
  | crash
  | done
  | max_restarts
  | washout
deriving DecidableEq, Repr

/-- Embedding of `_tail_lines` (lines 78-88) on a file given as its list of
lines: for a positive line budget it returns `lines[-max_lines:]`, else `[]`. -/
def tail_lines (lines : List String) (max_lines : ℕ) : List String :=
  if max_lines = 0 then [] else lines.drop (lines.length - max_lines)

/-- Size in bytes of a file made of the given lines (newline-terminated). -/
def totalBytes (lines : List String) : ℕ :=
  (lines.map String.length).sum + lines.length

/-- Bytes read from disk by `_tail_lines`: the implementation calls
`path.read_text(...)` (line 84), loading the entire file, for any positive
line budget. -/
def tail_read_bytes (lines : List String) (max_lines : ℕ) : ℕ :=
  if max_lines = 0 then 0 else totalBytes lines

/-- Embedding of `_write_log_tail` (lines 91-102): the lines of the
`child_log_tail.txt` artifact. -/
def write_log_tail (outLines errLines : List String) (tailN : ℕ) : List String :=
  let outTail := tail_lines outLines tailN
  let errTail := tail_lines errLines tailN
  ["=== child_stdout.log (tail) ==="] ++
    (if outTail.isEmpty then ["<empty>"] else outTail) ++
    [""] ++
    ["=== child_stderr.log (tail) ==="] ++
    (if errTail.isEmpty then ["<empty>"] else errTail)

/-- Embedding of the restart backoff computation (line 847). -/
def backoff_for (restart_backoff_s : ℚ) (failures : ℕ) : ℚ :=
  restart_backoff_s * min 6 (1 + (1 / 2) * (failures : ℚ))

/-- Backoff formula written from the specification text:
`backoff = base_backoff_seconds * min(6.0, 1.0 + 0.5 * failures)`. -/
def backoff_spec (base_backoff_seconds : ℚ) (failures : ℕ) : ℚ :=
  base_backoff_seconds * min 6 (1 + (1 / 2) * (failures : ℚ))

/-- One inner-loop poll observation supplied by the environment: the stop-file
check, the child poll result, the no-output clock reading, the current child
log contents, and whether the heartbeat timer fired. -/
structure PollIn where
  stopFile : Bool
  childExited : Option ℤ
  noOutputS : ℚ
  outLines : List String
  errLines : List String
  heartbeatDue : Bool
deriving DecidableEq, Repr

/-- How the inner poll loop of one attempt ended. `ranOut` means the observation
trace was exhausted while the child was still running. -/
inductive InnerExit where
  | stopKill
  | exited (rc : ℤ)
  | breachKill (abort : Bool)
  | ranOut
deriving DecidableEq, Repr

/-- Environment observations for one outer-loop iteration: the stop-file check
at the top, the log contents (used by the max-restarts artifact writer),
whether `Popen` succeeded, the inner poll observations, and the exit code
resolved after the inner loop breaks by kill. -/
structure EnvAttempt where
  stopFileAtTop : Bool
  outLinesTop : List String
  errLinesTop : List String
  launchOk : Bool
  polls : List PollIn
  finalRc : ℤ
deriving DecidableEq, Repr

/-- Supervisor configuration: a projection of the parsed arguments and the
resolved watchdog thresholds. -/
structure Config where
  maxRestarts : ℤ
  watchdogS : ℚ
  surgeS : ℚ
  spillS : ℚ
  abortAfterKills : ℕ
  heartbeatEnabled : Bool
  stopOnSuccess : Bool
  restartBackoffS : ℚ
  logTailLines : ℕ
deriving DecidableEq, Repr

/-- Observable supervisor state: the counters, the wake-trigger file content,
the watchdog snapshot file, the appended failure summary, the rewritten tail
artifact, the degrade breadcrumb, the count of kill-tree calls, the recorded
backoff sleeps, and a log of wake-trigger writes, each tagged with whether a
trigger file already existed at the moment of the write. -/
structure SupState where
  attempt : ℕ
  failures : ℕ
  killCount : ℕ
  exitCode : ℕ
  finished : Bool
  trigger : Option Reason
  triggerWrites : List (Reason × Bool)
  wdStage : Option (WatchdogStage × String)
  failureSummary : List (WatchdogStage × String)
  tailArtifact : Option (List String)
  degradeFile : Option String
  childKills : ℕ
  backoffs : List ℚ
deriving DecidableEq, Repr

/-- State after the startup section (lines 398-447): counters zeroed and,
when the watchdog is armed, an initial OK/armed snapshot written. -/
def initState (cfg : Config) : SupState where
  attempt := 0
  failures := 0
  killCount := 0
  exitCode := 0
  finished := false
  trigger := none
  triggerWrites := []
  wdStage := if 0 < cfg.watchdogS then some (WatchdogStage.OK, "armed") else none
  failureSummary := []
  tailArtifact := none
  degradeFile := none
  childKills := 0
  backoffs := []

/-- Embedding of the inner poll loop (lines 580-767). Arguments: state,
`stage_prev`, `degrade_level`, remaining poll observations. In order, each
tick checks the stop file (kill child and break), polls the child (break on
exit), classifies the no-output clock, emits the stage-transition snapshot
and the SPILL degrade breadcrumb, handles BREACH (failure summary, log tail,
kill counter, optional WASHOUT abort, kill child and break), and finally the
heartbeat trigger (written only when none exists). -/
def innerLoop (cfg : Config) :
    SupState → WatchdogStage → String → List PollIn → SupState × InnerExit
  | s, _, _, [] => (s, InnerExit.ranOut)
  | s, stagePrev, degLvl, p :: rest =>
    if p.stopFile then
      ({ s with childKills := s.childKills + 1 }, InnerExit.stopKill)
    else
      match p.childExited with
      | some rc => (s, InnerExit.exited rc)
      | none =>
        let stageNow := compute_watchdog_stage p.noOutputS cfg.surgeS cfg.spillS cfg.watchdogS
        let s1 :=
          if stageNow ≠ stagePrev ∧ 0 < cfg.watchdogS then
            let reason :=
              if stageNow.val < stagePrev.val then "output_resumed" else "no_output"
            let s0 := { s with wdStage := some (stageNow, reason) }
            if stageNow = WatchdogStage.SPILL ∧ degLvl ≠ "spill" then
              { s0 with degradeFile := some "spill" }
            else s0
          else s
        let degLvl1 :=
          if stageNow ≠ stagePrev ∧ 0 < cfg.watchdogS ∧
              stageNow = WatchdogStage.SPILL ∧ degLvl ≠ "spill" then "spill"
          else degLvl
        let stagePrev1 :=
          if stageNow ≠ stagePrev ∧ 0 < cfg.watchdogS then stageNow else stagePrev
        if 0 < cfg.watchdogS ∧ stageNow = WatchdogStage.BREACH then
          let s2 := { s1 with
            failureSummary := s1.failureSummary ++ [(WatchdogStage.BREACH, "no_output")],
            tailArtifact := some (write_log_tail p.outLines p.errLines cfg.logTailLines),
            killCount := s1.killCount + 1 }
          if 0 < cfg.abortAfterKills ∧ cfg.abortAfterKills ≤ s2.killCount then
            ({ s2 with
                failureSummary :=
                  s2.failureSummary ++ [(WatchdogStage.WASHOUT, "abort_after_kills")],
                wdStage := some (WatchdogStage.WASHOUT, "abort_after_kills"),
                childKills := s2.childKills + 1 },
              InnerExit.breachKill true)
          else
            ({ s2 with childKills := s2.childKills + 1 }, InnerExit.breachKill false)
        else
          let s4 :=
            if cfg.heartbeatEnabled ∧ p.heartbeatDue ∧ s1.trigger = none then
              { s1 with trigger := some Reason.heartbeat,
                        triggerWrites := s1.triggerWrites ++ [(Reason.heartbeat, false)] }
            else s1
          innerLoop cfg s4 stagePrev1 degLvl1 rest

/-- Embedding of the outer restart loop (lines 449-852). Each iteration
checks the stop file, then the max-restarts ceiling (WASHOUT artifacts when
the watchdog is armed, unconditional max_restarts trigger, stop), then
launches an attempt and dispatches on how its inner loop ended: WASHOUT abort
(exit code 3, washout trigger only if none exists, stop), success with
`stop_on_success` (unconditional done trigger, stop), or failure (increment
failures, crash trigger only if none exists, record the backoff sleep,
continue). -/
def outer (cfg : Config) : SupState → List EnvAttempt → SupState
  | s, [] => s
  | s, env :: rest =>
    if env.stopFileAtTop then
      { s with finished := true }
    else if cfg.maxRestarts < (s.failures : ℤ) then
      let s1 :=
        if 0 < cfg.watchdogS then
          { s with
            failureSummary := s.failureSummary ++ [(WatchdogStage.WASHOUT, "max_restarts")],
            tailArtifact :=
              some (write_log_tail env.outLinesTop env.errLinesTop cfg.logTailLines),
            wdStage := some (WatchdogStage.WASHOUT, "max_restarts") }
        else s
      { s1 with
        trigger := some Reason.max_restarts,
        triggerWrites := s1.triggerWrites ++ [(Reason.max_restarts, s1.trigger.isSome)],
        finished := true }
    else
      let s2 := { s with attempt := s.attempt + 1 }
      if env.launchOk then
        let res := innerLoop cfg s2 WatchdogStage.OK "" env.polls
        let s3 := res.1
        match res.2 with
        | InnerExit.ranOut => s3
        | ex =>
          let rc : ℤ := match ex with | InnerExit.exited rc0 => rc0 | _ => env.finalRc
          let abortJob : Bool := match ex with | InnerExit.breachKill true => true | _ => false
          if abortJob then
            let s4 := { s3 with exitCode := 3 }
            if s4.trigger = none then
              { s4 with trigger := some Reason.washout,
                        triggerWrites := s4.triggerWrites ++ [(Reason.washout, false)],
                        finished := true }
            else { s4 with finished := true }
          else if rc = 0 ∧ cfg.stopOnSuccess then
            { s3 with trigger := some Reason.done,
                      triggerWrites := s3.triggerWrites ++ [(Reason.done, s3.trigger.isSome)],
                      finished := true }
          else
            let s5 := { s3 with failures := s3.failures + 1 }
            let s6 :=
              if s5.trigger = none then
                { s5 with trigger := some Reason.crash,
                          triggerWrites := s5.triggerWrites ++ [(Reason.crash, false)] }
              else s5
            outer cfg
              { s6 with
                  backoffs := s6.backoffs ++ [backoff_for cfg.restartBackoffS s6.failures] }
              rest
      else
        outer cfg
          { s2 with failures := s2.failures + 1,
                    backoffs := s2.backoffs ++ [cfg.restartBackoffS] }
          rest

/-- Full supervisor run: startup followed by the outer loop over an
environment trace. -/
def runMain (cfg : Config) (envs : List EnvAttempt) : SupState :=
  outer cfg (initState cfg) envs

/-- Configuration with the watchdog disabled, `--max-restarts 0`, and
default stop-on-success. -/
def cfgNoWd : Config where
  maxRestarts := 0
  watchdogS := 0
  surgeS := 0
  spillS := 0
  abortAfterKills := 0
  heartbeatEnabled := false
  stopOnSuccess := true
  restartBackoffS := 5
  logTailLines := 200

/-- Same configuration but with `--max-restarts 5`. -/
def cfgRetry : Config := { cfgNoWd with maxRestarts := 5 }

/-- Same configuration but with the heartbeat enabled. -/
def cfgHb : Config := { cfgRetry with heartbeatEnabled := true }

/-- Poll observation: the child has exited with code 1. -/
def pollCrash : PollIn where
  stopFile := false
  childExited := some 1
  noOutputS := 0
  outLines := []
  errLines := []
  heartbeatDue := false

/-- Poll observation: the child has exited with code 0. -/
def pollOk : PollIn := { pollCrash with childExited := some 0 }

/-- Poll observation: child still running, heartbeat timer fired. -/
def pollHb : PollIn := { pollCrash with childExited := none, heartbeatDue := true }

/-- Poll observation: the stop file has appeared. -/
def pollStop : PollIn := { pollCrash with stopFile := true, childExited := none }

/-- Environment: one attempt whose child crashes with code 1. -/
def envCrash : EnvAttempt where
  stopFileAtTop := false
  outLinesTop := []
  errLinesTop := []
  launchOk := true
  polls := [pollCrash]
  finalRc := 1

/-- Environment: one attempt whose child exits with code 0. -/
def envDone : EnvAttempt := { envCrash with polls := [pollOk], finalRc := 0 }

/-- Environment: one attempt observed only long enough for a heartbeat. -/
def envHb : EnvAttempt := { envCrash with polls := [pollHb] }

/-- Environment: the stop file is present at the top of the outer loop. -/
def envStop : EnvAttempt := { envCrash with stopFileAtTop := true, polls := [] }

/-- Environment: `Popen` raises, the attempt never starts. -/
def envLaunchFail : EnvAttempt := { envCrash with launchOk := false, polls := [] }

/-- Counterexample to C4: with the watchdog disabled and `--max-restarts 0`,
one crash pushes failures past the ceiling; the supervisor then stops having
written no WASHOUT failure summary and no watchdog snapshot, emits the
max_restarts trigger over the still-outstanding crash trigger, and returns
exit code 0 — not a non-zero code. -/
theorem claim_C4_counterexample :
    (runMain cfgNoWd [envCrash, envCrash]).finished = true ∧
    (runMain cfgNoWd [envCrash, envCrash]).exitCode = 0 ∧
    (runMain cfgNoWd [envCrash, envCrash]).failureSummary = [] ∧
    (runMain cfgNoWd [envCrash, envCrash]).wdStage = none ∧
    (runMain cfgNoWd [envCrash, envCrash]).triggerWrites =
      [(Reason.crash, false), (Reason.max_restarts, true)] := by
  decide

/-- C4 as amended: whenever the cumulative failure count exceeds
`max_restarts` at the top of the loop, the supervisor stops making attempts
and emits a wake trigger with reason max_restarts (written unconditionally,
over any existing trigger); the WASHOUT-flavored failure summary and WASHOUT
watchdog snapshot are written only when the watchdog is enabled; and the
process exits with code 0, not a distinct non-zero code. -/
theorem claim_C4 (cfg : Config) (s : SupState) (env : EnvAttempt)
    (rest : List EnvAttempt) (htop : env.stopFileAtTop = false)
    (hmax : cfg.maxRestarts < (s.failures : ℤ)) (hexit : s.exitCode = 0) :
    (outer cfg s (env :: rest)).finished = true ∧
    (outer cfg s (env :: rest)).exitCode = 0 ∧
    (outer cfg s (env :: rest)).attempt = s.attempt ∧
    (outer cfg s (env :: rest)).trigger = some Reason.max_restarts ∧
    (outer cfg s (env :: rest)).triggerWrites =
      s.triggerWrites ++ [(Reason.max_restarts, s.trigger.isSome)] ∧
    (0 < cfg.watchdogS →
      (outer cfg s (env :: rest)).wdStage = some (WatchdogStage.WASHOUT, "max_restarts") ∧
      (outer cfg s (env :: rest)).failureSummary =
        s.failureSummary ++ [(WatchdogStage.WASHOUT, "max_restarts")]) ∧
    (¬ 0 < cfg.watchdogS →
      (outer cfg s (env :: rest)).wdStage = s.wdStage ∧
      (outer cfg s (env :: rest)).failureSummary = s.failureSummary) := by
  by_cases hw : 0 < cfg.watchdogS <;>
    simp [outer, htop, hmax, hexit, hw]

/-- Witness for C4 at a concrete state: failures 1 with ceiling 0. -/
theorem claim_C4_witness :
    ((outer cfgNoWd { initState cfgNoWd with failures := 1 } [envCrash]).finished = true ∧
      (outer cfgNoWd { initState cfgNoWd with failures := 1 } [envCrash]).exitCode = 0 ∧
      (outer cfgNoWd { initState cfgNoWd with failures := 1 } [envCrash]).trigger =
        some Reason.max_restarts) := by
  have h := claim_C4 cfgNoWd { initState cfgNoWd with failures := 1 } envCrash []
    (by decide) (by decide) (by decide)
  exact ⟨h.1, h.2.1, h.2.2.2.1⟩

/-- Reasons whose trigger writes are guarded by an existence check in the
source (heartbeat at line 750, crash at line 830, washout at line 799). -/
def antiSpamReason (r : Reason) : Prop :=
  r = Reason.heartbeat ∨ r = Reason.crash ∨ r = Reason.washout

/-- Write log discipline: every recorded write of an anti-spam reason found
no existing trigger file. -/
def NoOverwrite (l : List (Reason × Bool)) : Prop :=
  ∀ rb ∈ l, antiSpamReason rb.1 → rb.2 = false

/-- Helper: appending a write that found no trigger preserves the discipline. -/
theorem noOverwrite_append_false {l : List (Reason × Bool)} (h : NoOverwrite l)
    (r : Reason) : NoOverwrite (l ++ [(r, false)]) := by
  intro rb hrb hr
  rcases List.mem_append.mp hrb with h1 | h1
  · exact h rb h1 hr
  · simp only [List.mem_singleton] at h1
    subst h1
    rfl

/-- Helper: appending a write of a non-anti-spam reason preserves the
discipline whatever it found on disk. -/
theorem noOverwrite_append_other {l : List (Reason × Bool)} (h : NoOverwrite l)
    (r : Reason) (b : Bool) (hr : ¬ antiSpamReason r) :
    NoOverwrite (l ++ [(r, b)]) := by
  intro rb hrb hx
  rcases List.mem_append.mp hrb with h1 | h1
  · exact h rb h1 hx
  · simp only [List.mem_singleton] at h1
    subst h1
    exact absurd hx hr

/-- Helper: the inner poll loop only ever appends heartbeat writes that found
no trigger, so it preserves the write discipline. -/
theorem innerLoop_noOverwrite (cfg : Config) (polls : List PollIn) :
    ∀ (s : SupState) (sp : WatchdogStage) (dl : String),
      NoOverwrite s.triggerWrites →
      NoOverwrite (innerLoop cfg s sp dl polls).1.triggerWrites := by
  induction polls with
  | nil =>
    intro s sp dl h
    simpa [innerLoop] using h
  | cons p rest ih =>
    intro s sp dl h
    by_cases hstop : p.stopFile
    · simpa [innerLoop, hstop] using h
    · cases hce : p.childExited with
      | some rc => simpa [innerLoop, hstop, hce] using h
      | none =>
        simp only [innerLoop, hstop, hce, Bool.false_eq_true, if_false]
        split_ifs <;>
          first
            | simpa using h
            | exact ih _ _ _ (by simpa using h)
            | exact ih _ _ _ (by simpa using noOverwrite_append_false h Reason.heartbeat)

/-- Helper: the outer loop preserves the write discipline: heartbeat, crash
and washout writes are guarded; done and max_restarts writes are of
non-anti-spam reasons. -/
theorem outer_noOverwrite (cfg : Config) (envs : List EnvAttempt) :
    ∀ s : SupState, NoOverwrite s.triggerWrites →
      NoOverwrite (outer cfg s envs).triggerWrites := by
  induction envs with
  | nil =>
    intro s h
    simpa [outer] using h
  | cons env rest ih =>
    intro s h
    by_cases htop : env.stopFileAtTop
    · simpa [outer, htop] using h
    · by_cases hmax : cfg.maxRestarts < (s.failures : ℤ)
      · have hother : ¬ antiSpamReason Reason.max_restarts := by
          simp [antiSpamReason]
        by_cases hw : 0 < cfg.watchdogS <;>
          simpa [outer, htop, hmax, hw] using
            noOverwrite_append_other h Reason.max_restarts _ hother
      · by_cases hlaunch : env.launchOk
        · have h3 := innerLoop_noOverwrite cfg env.polls
            { s with attempt := s.attempt + 1 } WatchdogStage.OK "" (by simpa using h)
          simp only [outer, htop, hmax, hlaunch, Bool.false_eq_true, if_false, if_true,
            if_neg hmax]
          rcases hres : innerLoop cfg { s with attempt := s.attempt + 1 }
              WatchdogStage.OK "" env.polls with ⟨s3, ex⟩
          rw [hres] at h3
          cases ex with
          | ranOut => simpa using h3
          | stopKill =>
            by_cases hrc : env.finalRc = 0 ∧ cfg.stopOnSuccess
            · have hother : ¬ antiSpamReason Reason.done := by simp [antiSpamReason]
              simpa [hrc] using noOverwrite_append_other h3 Reason.done _ hother
            · by_cases htr : s3.trigger = none <;>
                · simp only [hrc, htr]
                  exact ih _ (by
                    first
                      | simpa [htr] using noOverwrite_append_false h3 Reason.crash
                      | simpa [htr] using h3)
          | exited rc =>
            by_cases hrc : rc = 0 ∧ cfg.stopOnSuccess
            · have hother : ¬ antiSpamReason Reason.done := by simp [antiSpamReason]
              simpa [hrc] using noOverwrite_append_other h3 Reason.done _ hother
            · by_cases htr : s3.trigger = none <;>
                · simp only [hrc, htr]
                  exact ih _ (by
                    first
                      | simpa [htr] using noOverwrite_append_false h3 Reason.crash
                      | simpa [htr] using h3)
          | breachKill ab =>
            cases ab with
            | true =>
              by_cases htr : s3.trigger = none <;>
                simpa [htr] using
                  (by
                    first
                      | exact noOverwrite_append_false h3 Reason.washout
                      | exact h3 : NoOverwrite _)
            | false =>
              by_cases hrc : env.finalRc = 0 ∧ cfg.stopOnSuccess
              · have hother : ¬ antiSpamReason Reason.done := by simp [antiSpamReason]
                simpa [hrc] using noOverwrite_append_other h3 Reason.done _ hother
              · by_cases htr : s3.trigger = none <;>
                  · simp only [hrc, htr]
                    exact ih _ (by
                      first
                        | simpa [htr] using noOverwrite_append_false h3 Reason.crash
                        | simpa [htr] using h3)
        · simp only [outer, htop, hlaunch, if_neg hmax]
          exact ih _ (by simpa using h)

/-- Counterexample to C5: after a crash leaves a trigger on disk, a run whose
next attempt exits 0 writes the done trigger with a trigger still present on
disk — the done (and max_restarts) writes are not check-then-write. -/
theorem claim_C5_counterexample :
    (runMain cfgRetry [envCrash, envDone]).triggerWrites =
      [(Reason.crash, false), (Reason.done, true)] ∧
    (Reason.done, true) ∈ (runMain cfgRetry [envCrash, envDone]).triggerWrites := by
  decide

/-- C5 as amended: the check-then-write anti-spam rule holds for the
heartbeat, crash and washout trigger writes — every such recorded write found
no existing trigger file; the done and max_restarts triggers, by contrast, are
written unconditionally. -/
theorem claim_C5 (cfg : Config) (envs : List EnvAttempt) :
    ∀ rb ∈ (runMain cfg envs).triggerWrites,
      (rb.1 = Reason.heartbeat ∨ rb.1 = Reason.crash ∨ rb.1 = Reason.washout) →
      rb.2 = false := by
  have h := outer_noOverwrite cfg envs (initState cfg) (by
    intro rb hrb hx
    simp [initState] at hrb)
  exact h

/-- Witness for C5 at a concrete heartbeat run: the recorded heartbeat write
found no trigger on disk. -/
theorem claim_C5_witness :
    (Reason.heartbeat, false) ∈ (runMain cfgHb [envHb]).triggerWrites ∧
    (Reason.heartbeat, false).2 = false := by
  refine ⟨by decide, ?_⟩
  exact claim_C5 cfgHb [envHb] (Reason.heartbeat, false) (by decide) (Or.inl rfl)

/-- Helper: the restart backoff is bounded by six times the base. -/
theorem backoff_for_le (base : ℚ) (hb : 0 ≤ base) (f : ℕ) :
    backoff_for base f ≤ 6 * base := by
  unfold backoff_for
  calc base * min 6 (1 + (1 / 2) * (f : ℚ))
      ≤ base * 6 := mul_le_mul_of_nonneg_left (min_le_left _ _) hb
    _ = 6 * base := by ring

/-- Helper: the inner poll loop never records a backoff sleep. -/
theorem innerLoop_backoffs (cfg : Config) (polls : List PollIn) :
    ∀ (s : SupState) (sp : WatchdogStage) (dl : String),
      (innerLoop cfg s sp dl polls).1.backoffs = s.backoffs := by
  induction polls with
  | nil =>
    intro s sp dl
    simp [innerLoop]
  | cons p rest ih =>
    intro s sp dl
    by_cases hstop : p.stopFile
    · simp [innerLoop, hstop]
    · cases hce : p.childExited with
      | some rc => simp [innerLoop, hstop, hce]
      | none =>
        simp only [innerLoop, hstop, hce, Bool.false_eq_true, if_false]
        split_ifs <;> simp [ih]

/-- Helper: every backoff the outer loop records is bounded by six times the
configured base backoff. -/
theorem outer_backoffs_bound (cfg : Config) (hb : 0 ≤ cfg.restartBackoffS)
    (envs : List EnvAttempt) :
    ∀ s : SupState, (∀ x ∈ s.backoffs, x ≤ 6 * cfg.restartBackoffS) →
      ∀ x ∈ (outer cfg s envs).backoffs, x ≤ 6 * cfg.restartBackoffS := by
  induction envs with
  | nil =>
    intro s h
    simpa [outer] using h
  | cons env rest ih =>
    intro s h
    by_cases htop : env.stopFileAtTop
    · simpa [outer, htop] using h
    · by_cases hmax : cfg.maxRestarts < (s.failures : ℤ)
      · by_cases hw : 0 < cfg.watchdogS <;> simpa [outer, htop, hmax, hw] using h
      · by_cases hlaunch : env.launchOk
        · have hbk := innerLoop_backoffs cfg env.polls
            { s with attempt := s.attempt + 1 } WatchdogStage.OK ""
          simp only [outer, htop, hlaunch, Bool.false_eq_true, if_false, if_true,
            if_neg hmax]
          rcases hres : innerLoop cfg { s with attempt := s.attempt + 1 }
              WatchdogStage.OK "" env.polls with ⟨s3, ex⟩
          rw [hres] at hbk
          have hbk2 : s3.backoffs = s.backoffs := by simpa using hbk
          have h3 : ∀ x ∈ s3.backoffs, x ≤ 6 * cfg.restartBackoffS := by
            intro x hx
            exact h x (hbk2 ▸ hx)
          cases ex with
          | ranOut => simpa using h3
          | stopKill =>
            by_cases hrc : env.finalRc = 0 ∧ cfg.stopOnSuccess
            · simpa [hrc] using h3
            · by_cases htr : s3.trigger = none <;>
                · simp only [hrc, htr]
                  refine ih _ ?_
                  intro x hx
                  simp only [List.mem_append, List.mem_singleton] at hx
                  rcases hx with hx | hx
                  · exact h3 x (by simpa [htr] using hx)
                  · subst hx
                    exact backoff_for_le cfg.restartBackoffS hb _
          | exited rc =>
            by_cases hrc : rc = 0 ∧ cfg.stopOnSuccess
            · simpa [hrc] using h3
            · by_cases htr : s3.trigger = none <;>
                · simp only [hrc, htr]
                  refine ih _ ?_
                  intro x hx
                  simp only [List.mem_append, List.mem_singleton] at hx
                  rcases hx with hx | hx
                  · exact h3 x (by simpa [htr] using hx)
                  · subst hx
                    exact backoff_for_le cfg.restartBackoffS hb _
          | breachKill ab =>
            cases ab with
            | true =>
              by_cases htr : s3.trigger = none <;> simpa [htr] using h3
            | false =>
              by_cases hrc : env.finalRc = 0 ∧ cfg.stopOnSuccess
              · simpa [hrc] using h3
              · by_cases htr : s3.trigger = none <;>
                  · simp only [hrc, htr]
                    refine ih _ ?_
                    intro x hx
                    simp only [List.mem_append, List.mem_singleton] at hx
                    rcases hx with hx | hx
                    · exact h3 x (by simpa [htr] using hx)
                    · subst hx
                      exact backoff_for_le cfg.restartBackoffS hb _
        · simp only [outer, htop, hlaunch, if_neg hmax]
          refine ih _ ?_
          intro x hx
          simp only [List.mem_append, List.mem_singleton] at hx
          rcases hx with hx | hx
          · exact h x (by simpa using hx)
          · subst hx
            linarith

/-- C6: the restart backoff equals the spec formula
`base * min(6, 1 + 0.5*failures)`, is bounded by six times the base, is
monotone in the failure count, and every backoff sleep recorded by a
supervisor run is bounded by six times the configured base. -/
theorem claim_C6 :
    (∀ (base : ℚ) (f : ℕ), backoff_for base f = backoff_spec base f) ∧
    (∀ base : ℚ, 0 ≤ base → ∀ f : ℕ, backoff_for base f ≤ 6 * base) ∧
    (∀ base : ℚ, 0 ≤ base → ∀ f1 f2 : ℕ, f1 ≤ f2 →
      backoff_for base f1 ≤ backoff_for base f2) ∧
    (∀ (cfg : Config) (envs : List EnvAttempt), 0 ≤ cfg.restartBackoffS →
      ∀ x ∈ (runMain cfg envs).backoffs, x ≤ 6 * cfg.restartBackoffS) := by
  refine ⟨fun base f => rfl, backoff_for_le, ?_, ?_⟩
  · intro base hb f1 f2 hf
    unfold backoff_for
    have hf2 : (f1 : ℚ) ≤ (f2 : ℚ) := by exact_mod_cast hf
    have hmin : min 6 (1 + (1 / 2) * (f1 : ℚ)) ≤ min 6 (1 + (1 / 2) * (f2 : ℚ)) :=
      min_le_min le_rfl (by linarith)
    exact mul_le_mul_of_nonneg_left hmin hb
  · intro cfg envs hb
    exact outer_backoffs_bound cfg hb envs (initState cfg) (by simp [initState])

/-- Witness for C6 at base 5: bound at failures 3, monotonicity from 1 to 2,
and the recorded backoff of a failed-launch run. -/
theorem claim_C6_witness :
    backoff_for 5 3 ≤ 6 * 5 ∧
    backoff_for 5 1 ≤ backoff_for 5 2 ∧
    (5 : ℚ) ∈ (runMain cfgNoWd [envLaunchFail]).backoffs ∧
    (5 : ℚ) ≤ 6 * cfgNoWd.restartBackoffS := by
  refine ⟨claim_C6.2.1 5 (by norm_num) 3,
    claim_C6.2.2.1 5 (by norm_num) 1 2 (by norm_num), by decide, ?_⟩
  exact claim_C6.2.2.2 cfgNoWd [envLaunchFail] (by decide) 5 (by decide)

/-- Helper: the tail is a suffix of the log lines. -/
theorem tail_lines_suffix (lines : List String) (n : ℕ) :
    ∃ front, front ++ tail_lines lines n = lines := by
  unfold tail_lines
  split_ifs with h
  · exact ⟨lines, by simp⟩
  · exact ⟨lines.take (lines.length - n), List.take_append_drop _ _⟩

/-- Helper: for a positive budget the tail has `min n (number of lines)`
lines. -/
theorem tail_lines_length (lines : List String) (n : ℕ) (hn : 0 < n) :
    (tail_lines lines n).length = min n lines.length := by
  unfold tail_lines
  rw [if_neg (by omega), List.length_drop]
  omega

/-- A large log: 100 lines of 10 characters each. -/
def bigLog : List String := List.replicate 100 "0123456789"

/-- Counterexample to C7: asking for a 1-line tail of a 1100-byte log reads
all 1100 bytes (the implementation loads the whole file), though the same
1-line tail of an 11-byte log reads 11 — the read is proportional to the
file, not to the tail, so it is not the claimed seek-from-end bounded read. -/
theorem claim_C7_counterexample :
    tail_read_bytes bigLog 1 = totalBytes bigLog ∧
    totalBytes bigLog = 1100 ∧
    tail_lines bigLog 1 = ["0123456789"] ∧
    tail_lines ["0123456789"] 1 = tail_lines bigLog 1 ∧
    tail_read_bytes ["0123456789"] 1 = 11 := by
  decide

/-- C7 as amended: when a poll classifies BREACH (watchdog enabled, child
still running, no stop file), the inner loop appends a BREACH/no_output
failure summary record, rewrites the tail artifact from the current logs,
kills the child tree and increments the kill counter, breaking out with a
breach kill; the tail artifact holds the last N lines of each log (a suffix
of `min N lines` lines), but it is produced by reading the entire file, not
by a memory-bounded seek-from-end read. -/
theorem claim_C7 :
    (∀ (cfg : Config) (s : SupState) (sp : WatchdogStage) (dl : String)
        (p : PollIn) (rest : List PollIn),
      p.stopFile = false → p.childExited = none → 0 < cfg.watchdogS →
      compute_watchdog_stage p.noOutputS cfg.surgeS cfg.spillS cfg.watchdogS =
        WatchdogStage.BREACH →
      (innerLoop cfg s sp dl (p :: rest)).1.killCount = s.killCount + 1 ∧
      (innerLoop cfg s sp dl (p :: rest)).1.childKills = s.childKills + 1 ∧
      (innerLoop cfg s sp dl (p :: rest)).1.tailArtifact =
        some (write_log_tail p.outLines p.errLines cfg.logTailLines) ∧
      (WatchdogStage.BREACH, "no_output") ∈ (innerLoop cfg s sp dl (p :: rest)).1.failureSummary ∧
      ((innerLoop cfg s sp dl (p :: rest)).2 = InnerExit.breachKill true ∨
        (innerLoop cfg s sp dl (p :: rest)).2 = InnerExit.breachKill false)) ∧
    (∀ (lines : List String) (n : ℕ), 0 < n →
      (∃ front, front ++ tail_lines lines n = lines) ∧
      (tail_lines lines n).length = min n lines.length ∧
      tail_read_bytes lines n = totalBytes lines) := by
  constructor
  · intro cfg s sp dl p rest hstop hce hw hbr
    simp only [innerLoop, hstop, hce, Bool.false_eq_true, if_false, hbr]
    split_ifs <;> simp_all
  · intro lines n hn
    refine ⟨tail_lines_suffix lines n, tail_lines_length lines n hn, ?_⟩
    unfold tail_read_bytes
    rw [if_neg (by omega)]

/-- Witness for C7 at a concrete breach poll and a concrete 2-line log. -/
theorem claim_C7_witness :
    (innerLoop { cfgNoWd with watchdogS := 10, surgeS := 3, spillS := 7 }
        (initState cfgNoWd) WatchdogStage.OK ""
        [{ pollCrash with childExited := none, noOutputS := 12 }]).1.killCount =
      (initState cfgNoWd).killCount + 1 ∧
    (tail_lines ["a", "b"] 1).length = min 1 2 := by
  constructor
  · have h := claim_C7.1 { cfgNoWd with watchdogS := 10, surgeS := 3, spillS := 7 }
      (initState cfgNoWd) WatchdogStage.OK ""
      { pollCrash with childExited := none, noOutputS := 12 } []
      (by decide) (by decide) (by norm_num [cfgNoWd]) (by
        unfold compute_watchdog_stage
        norm_num [cfgNoWd])
    exact h.1
  · exact (claim_C7.2 ["a", "b"] 1 (by norm_num)).2.1

/-- C8: a stop file present at the top of the outer loop stops the supervisor
with success semantics — no further attempt is spawned, no trigger is
written, and the exit code is 0; a stop file observed mid-attempt kills the
running child first, before any other processing of that tick. -/
theorem claim_C8 :
    (∀ (cfg : Config) (s : SupState) (env : EnvAttempt) (rest : List EnvAttempt),
      env.stopFileAtTop = true → s.exitCode = 0 →
      (outer cfg s (env :: rest)).finished = true ∧
      (outer cfg s (env :: rest)).exitCode = 0 ∧
      (outer cfg s (env :: rest)).attempt = s.attempt ∧
      (outer cfg s (env :: rest)).triggerWrites = s.triggerWrites) ∧
    (∀ (cfg : Config) (s : SupState) (sp : WatchdogStage) (dl : String)
        (p : PollIn) (rest : List PollIn), p.stopFile = true →
      innerLoop cfg s sp dl (p :: rest) =
        ({ s with childKills := s.childKills + 1 }, InnerExit.stopKill)) := by
  constructor
  · intro cfg s env rest htop hexit
    simp [outer, htop, hexit]
  · intro cfg s sp dl p rest hstop
    simp [innerLoop, hstop]

/-- Witness for C8 at the initial state with a present stop file, and a
concrete stop-file poll. -/
theorem claim_C8_witness :
    ((outer cfgNoWd (initState cfgNoWd) [envStop]).finished = true ∧
      (outer cfgNoWd (initState cfgNoWd) [envStop]).exitCode = 0) ∧
    innerLoop cfgNoWd (initState cfgNoWd) WatchdogStage.OK "" [pollStop] =
      ({ initState cfgNoWd with childKills := (initState cfgNoWd).childKills + 1 },
        InnerExit.stopKill) := by
  refine ⟨?_, claim_C8.2 cfgNoWd (initState cfgNoWd) WatchdogStage.OK "" pollStop []
    (by decide)⟩
  have h1 := claim_C8.1 cfgNoWd (initState cfgNoWd) envStop [] (by decide) (by decide)
  exact ⟨h1.1, h1.2.1⟩

end Vraxion
